import Mathlib

/-!
Verification of the budget subsystem of the Personal-Finance-Calculator
repository (src/modules/budget.py, src/modules/calculator.py,
src/config/settings.py).

Python floats are embedded as rationals (ℚ); `round(x, 2)` becomes `round2`,
`round(x, 1)` becomes `round1` (round-half-up on exact rationals).  Python
dicts holding budget categories and expense breakdowns are embedded as
insertion-ordered association lists `List (String × β)` with the dict
operations `dictLookup` / `dictGet` / `dictSet` / `dictDel` / `dictAdd`
reproducing CPython dict semantics (update-in-place keeps position, insert
appends, delete removes the entry).  Python `raise` in `create_budget` is
embedded as `Except.error`.  The impure `datetime.now()` is threaded as
explicit `today` / `dateOffset` parameters, and the currency-conversion
collaborator (modules/currency.py, not present under src/) is threaded as an
explicit `conv` parameter.
-/

/-- Configuration constant from src/config/settings.py: DEFAULT_CURRENCY. -/
def DEFAULT_CURRENCY : String := "USD"

/-- Configuration constant from src/config/settings.py: MAX_TRANSACTION_AMOUNT. -/
def MAX_TRANSACTION_AMOUNT : ℚ := 1000000

/-- Python round(x, 2) (DECIMAL_PRECISION = 2 in src/config/settings.py),
on exact rationals: round-half-up to 2 decimal places via the floor of
x * 100 + 1/2. -/
def round2 (q : ℚ) : ℚ := ((q * 100 + 1 / 2).floor : ℤ) / 100

/-- Python round(x, 1), used for percentages. -/
def round1 (q : ℚ) : ℚ := ((q * 10 + 1 / 2).floor : ℤ) / 10

/-- Modelled from the spec: modules/data_handler.py is not under src/; the
spec describes `validate_positive_number` as the validation used by all
numeric-input paths, failing (returning an optional/failure value) on input
that is "not a positive number within configured bounds" (`InvalidAmount`:
negative, zero, or outside configured bounds). -/
def validate_positive_number (x : ℚ) : Option ℚ :=
  if 0 < x ∧ x ≤ MAX_TRANSACTION_AMOUNT then some x else none

/-! ## Association-list model of Python dicts -/

/-- Python `d.get(k)` / `k in d` support: value at the first (unique) key. -/
def dictLookup {β : Type} : List (String × β) → String → Option β
  | [], _ => none
  | p :: rest, k => if p.1 = k then some p.2 else dictLookup rest k

/-- Python `d.get(k, default)`. -/
def dictGet {β : Type} (l : List (String × β)) (k : String) (default : β) : β :=
  (dictLookup l k).getD default

/-- Python `d[k] = v`: replace in place if the key is present, else append. -/
def dictSet {β : Type} : List (String × β) → String → β → List (String × β)
  | [], k, v => [(k, v)]
  | p :: rest, k, v => if p.1 = k then (k, v) :: rest else p :: dictSet rest k v

/-- Python `del d[k]`: drop the (unique) entry with this key. -/
def dictDel {β : Type} : List (String × β) → String → List (String × β)
  | [], _ => []
  | p :: rest, k => if p.1 = k then rest else p :: dictDel rest k

/-- Python `defaultdict(float); d[k] += v`: add to the entry, creating it at
the end with the given increment if absent. -/
def dictAdd : List (String × ℚ) → String → ℚ → List (String × ℚ)
  | [], k, v => [(k, v)]
  | p :: rest, k, v => if p.1 = k then (p.1, p.2 + v) :: rest else p :: dictAdd rest k v

/-- Sum of the values of an association list (Python `sum(d.values())`). -/
def totalRaw {β : Type} [AddCommMonoid β] (l : List (String × β)) : β :=
  (l.map Prod.snd).sum

/-! ## Budget entity (src/modules/budget.py, class Budget) -/

/-- Budget record: monthly_income, currency, categories (insertion-ordered
dict category-name → amount), created_date, last_updated. -/
structure Budget where
  monthly_income : ℚ
  currency : String
  categories : List (String × ℚ)
  created_date : String
  last_updated : String
  deriving DecidableEq, Repr

/-- Budget.__init__ (budget.py lines 43-55): rounds the income, starts with
no categories; `today` stands for get_current_date(). -/
def Budget.init (monthly_income : ℚ) (currency : String) (today : String) : Budget :=
  { monthly_income := round2 monthly_income
    currency := currency
    categories := []
    created_date := today
    last_updated := today }

/-- Budget.get_total_budget (budget.py lines 129-131). -/
def Budget.get_total_budget (b : Budget) : ℚ :=
  round2 (totalRaw b.categories)

/-- Budget.get_remaining_budget (budget.py lines 133-135). -/
def Budget.get_remaining_budget (b : Budget) : ℚ :=
  round2 (b.monthly_income - b.get_total_budget)

/-- Budget.get_category_amount (budget.py lines 117-119). -/
def Budget.get_category_amount (b : Budget) (category : String) : ℚ :=
  dictGet b.categories category 0

/-- Budget.add_category (budget.py lines 57-99): validate the name and the
amount, tentatively write the new amount, roll back (restore the old amount
if it was > 0, else delete the key) when the total would exceed the income.
Returns the Python bool together with the resulting budget state.  The
Python test `not category or not category.strip()` (empty or all-whitespace
name) is embedded as `category.data.all Char.isWhitespace`, which is exactly
true on such names. -/
def Budget.add_category (b : Budget) (category : String) (amount : ℚ)
    (today : String) : Bool × Budget :=
  if category.data.all Char.isWhitespace then (false, b)
  else
    match validate_positive_number amount with
    | none => (false, b)
    | some validated =>
      let old_amount := dictGet b.categories category 0
      let tentative : Budget := { b with categories := dictSet b.categories category validated }
      if tentative.get_total_budget > b.monthly_income then
        if old_amount > 0 then
          (false, { b with categories := dictSet tentative.categories category old_amount })
        else
          (false, { b with categories := dictDel tentative.categories category })
      else
        (true, { tentative with last_updated := today })

/-- Budget.remove_category (budget.py lines 101-115). -/
def Budget.remove_category (b : Budget) (category : String)
    (today : String) : Bool × Budget :=
  if (dictLookup b.categories category).isSome then
    (true, { b with categories := dictDel b.categories category, last_updated := today })
  else
    (false, b)

/-- Plain attribute mapping produced by Budget.to_dict (budget.py lines
143-151); `Option` fields model `data.get(key, default)` in from_dict. -/
structure BudgetDict where
  monthly_income : ℚ
  currency : Option String
  categories : Option (List (String × ℚ))
  created_date : Option String
  last_updated : Option String
  deriving DecidableEq, Repr

/-- Budget.to_dict (budget.py lines 143-151). -/
def Budget.to_dict (b : Budget) : BudgetDict :=
  { monthly_income := b.monthly_income
    currency := some b.currency
    categories := some b.categories
    created_date := some b.created_date
    last_updated := some b.last_updated }

/-- Budget.from_dict (budget.py lines 153-160): build via __init__ (so the
income is rounded) and then overwrite categories and dates from the mapping,
defaulting missing fields; no validation of the categories installed. -/
def Budget.from_dict (data : BudgetDict) (today : String) : Budget :=
  let b := Budget.init data.monthly_income (data.currency.getD DEFAULT_CURRENCY) today
  { b with
    categories := data.categories.getD []
    created_date := data.created_date.getD today
    last_updated := data.last_updated.getD today }

/-- create_budget (budget.py lines 162-182): validates the income and raises
ValueError (embedded as Except.error) when validation fails. -/
def create_budget (monthly_income : ℚ) (currency : String)
    (today : String) : Except String Budget :=
  match validate_positive_number monthly_income with
  | none => Except.error "Invalid monthly income. Must be a positive number."
  | some validated => Except.ok (Budget.init validated currency today)

/-! ## Transactions and the calculator collaborator (src/modules/calculator.py) -/

/-- Transaction record (dict with keys date/type/amount/category/currency/
description in the source). -/
structure Transaction where
  date : String
  type : String
  amount : ℚ
  category : String
  currency : String
  description : String
  deriving DecidableEq, Repr

/-- Conversion collaborator: modules/currency.convert_currency is not under
src/; per the spec it maps (amount, fromCurrency, toCurrency) to a converted
amount via a static rate table and signals failure (none) on an unknown
currency.  It is threaded as an explicit parameter. -/
abbrev Conv : Type := ℚ → String → String → Option ℚ

/-- get_transactions_by_period (calculator.py lines 496-533): keep the
transactions whose date string is ≥ the start date derived from
datetime.now() for the four recognized periods; any other period returns the
list unfiltered.  `dateOffset n` stands for the YYYY-MM-DD rendering of
(now - n days). -/
def get_transactions_by_period (dateOffset : Nat → String)
    (transactions : List Transaction) (period : String) : List Transaction :=
  if period = "week" then
    transactions.filter (fun t => decide (dateOffset 7 ≤ t.date))
  else if period = "month" then
    transactions.filter (fun t => decide (dateOffset 30 ≤ t.date))
  else if period = "quarter" then
    transactions.filter (fun t => decide (dateOffset 90 ≤ t.date))
  else if period = "year" then
    transactions.filter (fun t => decide (dateOffset 365 ≤ t.date))
  else
    transactions

/-- get_expense_breakdown (calculator.py lines 286-333): per-category totals
of expense transactions, each amount converted to the target currency when
possible (conversion failure falls back to the unconverted amount), every
total rounded at the end. -/
def get_expense_breakdown (conv : Conv) (transactions : List Transaction)
    (start_date end_date : Option String) (target_currency : String) :
    List (String × ℚ) :=
  let totals := transactions.foldl (fun acc t =>
    if t.type ≠ "expense" then acc
    else if start_date.any (fun s => decide (t.date < s)) then acc
    else if end_date.any (fun e => decide (e < t.date)) then acc
    else
      let amount := if t.currency = target_currency then t.amount
        else (conv t.amount t.currency target_currency).getD t.amount
      dictAdd acc t.category amount) []
  totals.map (fun p => (p.1, round2 p.2))

/-- Modelled from the spec: modules/currency.normalize_to_base_currency is
not under src/; spec §4.2 step 2 says it re-expresses each transaction's
amount in the target currency, falling back silently to the original
unconverted amount when conversion fails. -/
def normalize_to_base_currency (conv : Conv) (transactions : List Transaction)
    (target_currency : String) : List Transaction :=
  transactions.map (fun t =>
    if t.currency = target_currency then t
    else
      match conv t.amount t.currency target_currency with
      | some a => { t with amount := a, currency := target_currency }
      | none => t)

/-! ## Budget reconciliation engine (src/modules/budget.py) -/

/-- Python float value of the percentage_used field, which can be
float('inf') when the budgeted amount is 0 and there is spending. -/
inductive Pct where
  | val (q : ℚ)
  | inf
  deriving DecidableEq, Repr

/-- Per-category comparison entry built by track_spending_vs_budget. -/
structure Entry where
  budgeted : ℚ
  actual : ℚ
  variance : ℚ
  percentage_used : Pct
  status : String
  deriving DecidableEq, Repr

/-- Summary entry stored under the reserved '_summary' key in the source's
comparison dict; kept as a separate typed field here. -/
structure Summary where
  total_budgeted : ℚ
  total_spent : ℚ
  total_variance : ℚ
  budget_utilization : ℚ
  deriving DecidableEq, Repr

/-- Comparison result of track_spending_vs_budget: the per-category entries
(budget categories in insertion order, then unbudgeted spending categories),
and the '_summary' aggregate. -/
structure Comparison where
  entries : List (String × Entry)
  summary : Summary
  deriving DecidableEq, Repr

/-- Actual per-category expense spending used by track_spending_vs_budget
(budget.py lines 257-265): period filter, optional currency normalization,
then the expense breakdown in the budget's currency. -/
def period_spending (conv : Conv) (dateOffset : Nat → String) (b : Budget)
    (transactions : List Transaction) (period : String) : List (String × ℚ) :=
  let period_transactions := get_transactions_by_period dateOffset transactions period
  let period_transactions :=
    if b.currency ≠ DEFAULT_CURRENCY then
      normalize_to_base_currency conv period_transactions b.currency
    else period_transactions
  get_expense_breakdown conv period_transactions none none b.currency

/-- Comparison entry for a category present in budget.categories
(budget.py lines 273-291). -/
def track_entry (spending : List (String × ℚ)) (category : String)
    (budgeted : ℚ) : Entry :=
  let actual := dictGet spending category 0
  let variance := actual - budgeted
  { budgeted := round2 budgeted
    actual := round2 actual
    variance := round2 variance
    percentage_used :=
      if budgeted > 0 then Pct.val (round1 (actual / budgeted * 100))
      else if actual = 0 then Pct.val 0 else Pct.inf
    status := if variance > 0 then "over" else if variance < 0 then "under" else "exact" }

/-- Comparison entry for spending in a category absent from
budget.categories (budget.py lines 294-303). -/
def unbudgeted_entry (amount : ℚ) : Entry :=
  { budgeted := 0
    actual := round2 amount
    variance := round2 amount
    percentage_used := Pct.inf
    status := "unbudgeted" }

/-- track_spending_vs_budget (budget.py lines 238-313). -/
def track_spending_vs_budget (conv : Conv) (dateOffset : Nat → String)
    (b : Budget) (transactions : List Transaction) (period : String) :
    Comparison :=
  let spending := period_spending conv dateOffset b transactions period
  let budget_entries := b.categories.map (fun p => (p.1, track_entry spending p.1 p.2))
  let extras := spending.filter (fun p => (dictLookup b.categories p.1).isNone)
  let total_budgeted := totalRaw b.categories
  let total_spent :=
    (b.categories.map (fun p => dictGet spending p.1 0)).sum + totalRaw extras
  { entries := budget_entries ++ extras.map (fun p => (p.1, unbudgeted_entry p.2))
    summary :=
      { total_budgeted := round2 total_budgeted
        total_spent := round2 total_spent
        total_variance := round2 (total_spent - total_budgeted)
        budget_utilization :=
          if total_budgeted > 0 then round1 (total_spent / total_budgeted * 100)
          else 0 } }

/-- Item of get_budget_status's over_budget_categories list. -/
structure OverItem where
  category : String
  variance : ℚ
  percentage_over : Pct
  deriving DecidableEq, Repr

/-- Item of get_budget_status's under_budget_categories list. -/
structure UnderItem where
  category : String
  remaining : ℚ
  percentage_used : Pct
  deriving DecidableEq, Repr

/-- Item of get_budget_status's unbudgeted_categories list. -/
structure UnbudgetedItem where
  category : String
  amount : ℚ
  deriving DecidableEq, Repr

/-- Subtraction of a rational from a possibly-infinite percentage (Python
float arithmetic: inf - 100 = inf). -/
def Pct.subNum : Pct → ℚ → Pct
  | Pct.val q, r => Pct.val (q - r)
  | Pct.inf, _ => Pct.inf

/-- Result record of get_budget_status. -/
structure BudgetStatus where
  budget_health : String
  total_budgeted : ℚ
  total_spent : ℚ
  remaining_budget : ℚ
  budget_utilization : ℚ
  over_budget_categories : List OverItem
  under_budget_categories : List UnderItem
  unbudgeted_categories : List UnbudgetedItem
  categories_count : Nat
  currency : String
  deriving DecidableEq, Repr

/-- get_budget_status (budget.py lines 353-405); the period defaults to
'month' at the call site. -/
def get_budget_status (conv : Conv) (dateOffset : Nat → String) (b : Budget)
    (transactions : List Transaction) : BudgetStatus :=
  let comparison := track_spending_vs_budget conv dateOffset b transactions "month"
  let summary := comparison.summary
  { budget_health := if summary.total_variance ≤ 0 then "healthy" else "over_budget"
    total_budgeted := summary.total_budgeted
    total_spent := summary.total_spent
    remaining_budget := b.get_remaining_budget
    budget_utilization := summary.budget_utilization
    over_budget_categories := comparison.entries.filterMap (fun p =>
      if p.2.status = "over" then
        some { category := p.1, variance := p.2.variance,
               percentage_over := p.2.percentage_used.subNum 100 }
      else none)
    under_budget_categories := comparison.entries.filterMap (fun p =>
      if p.2.status = "under" then
        some { category := p.1, remaining := -p.2.variance,
               percentage_used := p.2.percentage_used }
      else none)
    unbudgeted_categories := comparison.entries.filterMap (fun p =>
      if p.2.status = "unbudgeted" then
        some { category := p.1, amount := p.2.actual }
      else none)
    categories_count := b.categories.length
    currency := b.currency }

/-- Suggestion record produced by suggest_budget_adjustments; the free-text
`reason` field (pure display formatting) is omitted. -/
structure Suggestion where
  category : String
  type : String
  current_amount : ℚ
  suggested_amount : ℚ
  priority : String
  deriving DecidableEq, Repr

/-- Per-category suggestion logic of suggest_budget_adjustments (budget.py
lines 628-671), operating on the (already rounded) comparison entry. -/
def suggestionFor (category : String) (e : Entry) : Option Suggestion :=
  if e.status = "over" ∧ e.variance > e.budgeted * (1/10) then
    some { category := category, type := "increase", current_amount := e.budgeted,
           suggested_amount := round2 (e.budgeted + e.variance * (12/10)),
           priority := if e.variance > e.budgeted * (1/4) then "high" else "medium" }
  else if e.status = "under" ∧ |e.variance| > e.budgeted * (3/10) then
    some { category := category, type := "decrease", current_amount := e.budgeted,
           suggested_amount := round2 (max (e.budgeted - |e.variance| * (1/2)) (e.actual * (11/10))),
           priority := "low" }
  else if e.status = "unbudgeted" ∧ e.actual > 0 then
    some { category := category, type := "add", current_amount := 0,
           suggested_amount := round2 (e.actual * (12/10)),
           priority := "medium" }
  else none

/-- priority_order dict of budget.py line 674 (.get default 0). -/
def priority_weight (p : String) : Nat :=
  if p = "high" then 3 else if p = "medium" then 2 else if p = "low" then 1 else 0

/-- suggestions.sort(key=priority weight, reverse=True) of budget.py line
675: Python's sort is stable and reverse=True keeps equal keys in encounter
order, so the result is exactly the weight-3 block, then weight-2, then
weight-1, then the rest, each in encounter order. -/
def sort_by_priority (l : List Suggestion) : List Suggestion :=
  l.filter (fun s => priority_weight s.priority = 3) ++
    (l.filter (fun s => priority_weight s.priority = 2) ++
      (l.filter (fun s => priority_weight s.priority = 1) ++
        l.filter (fun s => priority_weight s.priority = 0)))

/-- suggest_budget_adjustments (budget.py lines 607-677); the period
defaults to 'month' at the call site, and the '_summary' key skipped by the
source loop lives outside `entries` in this embedding. -/
def suggest_budget_adjustments (conv : Conv) (dateOffset : Nat → String)
    (b : Budget) (transactions : List Transaction) : List Suggestion :=
  sort_by_priority
    (((track_spending_vs_budget conv dateOffset b transactions "month").entries).filterMap
      (fun p => suggestionFor p.1 p.2))

/-- Result record of get_budget_health_score. -/
structure HealthScore where
  score : ℚ
  health_level : String
  budget_utilization : ℚ
  over_budget_count : Nat
  unbudgeted_count : Nat
  recommendations_count : Nat
  deriving DecidableEq, Repr

/-- get_budget_health_score (budget.py lines 981-1034). -/
def get_budget_health_score (conv : Conv) (dateOffset : Nat → String)
    (b : Budget) (transactions : List Transaction) : HealthScore :=
  let status := get_budget_status conv dateOffset b transactions
  let score1 : ℚ := 100 - (status.over_budget_categories.length : ℚ) * 10
  let score2 : ℚ := score1 - (status.unbudgeted_categories.length : ℚ) * 5
  let score3 : ℚ :=
    if status.budget_utilization > 95 then
      score2 - (status.budget_utilization - 95) * 2
    else score2
  let score4 : ℚ :=
    if 80 ≤ status.budget_utilization ∧ status.budget_utilization ≤ 90 then
      score3 + 10
    else score3
  let score5 : ℚ := max 0 (min 100 score4)
  { score := round1 score5
    health_level :=
      if score5 ≥ 80 then "Excellent"
      else if score5 ≥ 60 then "Good"
      else if score5 ≥ 40 then "Fair"
      else "Poor"
    budget_utilization := status.budget_utilization
    over_budget_count := status.over_budget_categories.length
    unbudgeted_count := status.unbudgeted_categories.length
    recommendations_count := (suggest_budget_adjustments conv dateOffset b transactions).length }

/-- update_budget_income (budget.py lines 567-605): validate, set the income
directly when the prior income is 0, otherwise rescale every category by
newIncome/oldIncome with independent per-category rounding and then set the
income. -/
def update_budget_income (b : Budget) (new_income : ℚ) (today : String) :
    Bool × Budget :=
  match validate_positive_number new_income with
  | none => (false, b)
  | some validated =>
    if b.monthly_income = 0 then
      (true, { b with monthly_income := validated })
    else
      let scale_factor := validated / b.monthly_income
      (true, { b with
        categories := b.categories.map (fun p => (p.1, round2 (p.2 * scale_factor)))
        monthly_income := validated
        last_updated := today })

/-- Per-category suggestion rule exactly as the spec words it (C7): increase
by variance * 1.2 when status is over and variance exceeds 0.10 * budgeted
(priority high when variance exceeds 0.25 * budgeted, else medium); decrease
to max(budgeted - 0.5 * |variance|, 1.1 * actual) at priority low when status
is under and |variance| exceeds 0.30 * budgeted; add actual * 1.2 at priority
medium when status is unbudgeted and actual is positive. -/
def claimSuggestionFor (category : String) (e : Entry) : Option Suggestion :=
  if e.status = "over" then
    if e.variance > (1/10) * e.budgeted then
      some { category := category, type := "increase", current_amount := e.budgeted,
             suggested_amount := round2 (e.budgeted + e.variance * (12/10)),
             priority := if e.variance > (1/4) * e.budgeted then "high" else "medium" }
    else none
  else if e.status = "under" then
    if |e.variance| > (3/10) * e.budgeted then
      some { category := category, type := "decrease", current_amount := e.budgeted,
             suggested_amount := round2 (max (e.budgeted - (1/2) * |e.variance|) ((11/10) * e.actual)),
             priority := "low" }
    else none
  else if e.status = "unbudgeted" then
    if e.actual > 0 then
      some { category := category, type := "add", current_amount := 0,
             suggested_amount := round2 (e.actual * (12/10)),
             priority := "medium" }
    else none
  else none

/-- Budget states reachable through the public lifecycle: create_budget
followed by any sequence of add_category and remove_category calls. -/
inductive ReachableBudget : Budget → Prop
  | create (monthly_income : ℚ) (currency today : String) (b : Budget) :
      create_budget monthly_income currency today = Except.ok b → ReachableBudget b
  | add (b : Budget) (category : String) (amount : ℚ) (today : String) :
      ReachableBudget b → ReachableBudget (b.add_category category amount today).2
  | remove (b : Budget) (category today : String) :
      ReachableBudget b → ReachableBudget (b.remove_category category today).2

/-- Lifecycle invariant: all stored category amounts are positive and the
rounded total stays within the income. -/
def BudgetInv (b : Budget) : Prop :=
  (∀ q ∈ b.categories, 0 < q.2) ∧ b.get_total_budget ≤ b.monthly_income

/-! ## Helper lemmas about the dict model and rounding -/

lemma totalRaw_nil {β : Type} [AddCommMonoid β] : totalRaw ([] : List (String × β)) = 0 := rfl

lemma totalRaw_cons {β : Type} [AddCommMonoid β] (p : String × β) (l : List (String × β)) :
    totalRaw (p :: l) = p.2 + totalRaw l := by
  simp [totalRaw]

lemma ratFloor_eq_intFloor (q : ℚ) : q.floor = ⌊q⌋ := rfl

lemma round2_mono {a b : ℚ} (h : a ≤ b) : round2 a ≤ round2 b := by
  unfold round2
  rw [ratFloor_eq_intFloor, ratFloor_eq_intFloor]
  have h2 : ⌊a * 100 + 1 / 2⌋ ≤ ⌊b * 100 + 1 / 2⌋ := Int.floor_le_floor (by linarith)
  have h3 : ((⌊a * 100 + 1 / 2⌋ : ℤ) : ℚ) ≤ ((⌊b * 100 + 1 / 2⌋ : ℤ) : ℚ) := by
    exact_mod_cast h2
  exact (div_le_div_iff_of_pos_right (by norm_num)).mpr h3

lemma round2_zero : round2 0 = 0 := by
  unfold round2
  rw [ratFloor_eq_intFloor]
  norm_num

lemma mem_of_dictLookup {β : Type} {l : List (String × β)} {k : String} {v : β}
    (h : dictLookup l k = some v) : (k, v) ∈ l := by
  induction l with
  | nil => simp [dictLookup] at h
  | cons p rest ih =>
    obtain ⟨a, b⟩ := p
    by_cases hk : a = k
    · subst hk
      simp [dictLookup] at h
      subst h
      exact List.mem_cons_self _ _
    · simp [dictLookup, hk] at h
      exact List.mem_cons_of_mem _ (ih h)

lemma dictLookup_map {β γ : Type} (f : String → β → γ) (l : List (String × β)) (k : String) :
    dictLookup (l.map (fun p => (p.1, f p.1 p.2))) k = (dictLookup l k).map (f k) := by
  induction l with
  | nil => simp [dictLookup]
  | cons p rest ih =>
    obtain ⟨a, b⟩ := p
    by_cases hk : a = k
    · subst hk
      simp [dictLookup]
    · simp [dictLookup, hk, ih]

lemma dictLookup_map_val {β γ : Type} (f : β → γ) (l : List (String × β)) (k : String) :
    dictLookup (l.map (fun p => (p.1, f p.2))) k = (dictLookup l k).map f := by
  induction l with
  | nil => simp [dictLookup]
  | cons p rest ih =>
    obtain ⟨a, b⟩ := p
    by_cases hk : a = k
    · subst hk
      simp [dictLookup]
    · simp [dictLookup, hk, ih]

lemma dictLookup_append_of_some {β : Type} {l1 : List (String × β)} {k : String} {v : β}
    (l2 : List (String × β)) (h : dictLookup l1 k = some v) :
    dictLookup (l1 ++ l2) k = some v := by
  induction l1 with
  | nil => simp [dictLookup] at h
  | cons p rest ih =>
    by_cases hk : p.1 = k
    · simp [dictLookup, hk] at h ⊢
      exact h
    · simp [dictLookup, hk] at h ⊢
      exact ih h

lemma dictLookup_append_of_none {β : Type} {l1 : List (String × β)} {k : String}
    (l2 : List (String × β)) (h : dictLookup l1 k = none) :
    dictLookup (l1 ++ l2) k = dictLookup l2 k := by
  induction l1 with
  | nil => simp
  | cons p rest ih =>
    by_cases hk : p.1 = k
    · simp [dictLookup, hk] at h
    · simp [dictLookup, hk] at h ⊢
      exact ih h

lemma dictLookup_filter_of_key {β : Type} {l : List (String × β)} {k : String}
    {p : String × β → Bool} (hp : ∀ v, p (k, v) = true) :
    dictLookup (l.filter p) k = dictLookup l k := by
  induction l with
  | nil => simp
  | cons q rest ih =>
    obtain ⟨a, b⟩ := q
    by_cases hk : a = k
    · subst hk
      simp [List.filter, hp b, dictLookup]
    · cases hq : p (a, b) with
      | true => simp [List.filter, hq, dictLookup, hk, ih]
      | false => simp [List.filter, hq, dictLookup, hk, ih]

lemma dictLookup_filter_of_none {β : Type} {l : List (String × β)} {k : String}
    (p : String × β → Bool) (h : dictLookup l k = none) :
    dictLookup (l.filter p) k = none := by
  induction l with
  | nil => exact h
  | cons q rest ih =>
    by_cases hk : q.1 = k
    · simp [dictLookup, hk] at h
    · simp [dictLookup, hk] at h
      cases hq : p q with
      | true => simp [List.filter, hq, dictLookup, hk, ih h]
      | false => simp [List.filter, hq, ih h]

lemma dictSet_dictSet {β : Type} (l : List (String × β)) (k : String) (v w : β) :
    dictSet (dictSet l k v) k w = dictSet l k w := by
  induction l with
  | nil => simp [dictSet]
  | cons p rest ih =>
    by_cases hk : p.1 = k
    · simp [dictSet, hk]
    · simp [dictSet, hk, ih]

lemma dictSet_eq_of_lookup {β : Type} {l : List (String × β)} {k : String} {v : β}
    (h : dictLookup l k = some v) : dictSet l k v = l := by
  induction l with
  | nil => simp [dictLookup] at h
  | cons p rest ih =>
    obtain ⟨a, b⟩ := p
    by_cases hk : a = k
    · subst hk
      simp [dictLookup] at h
      simp [dictSet, h]
    · simp [dictLookup, hk] at h
      simp [dictSet, hk, ih h]

lemma dictSet_eq_append_of_none {β : Type} {l : List (String × β)} {k : String}
    (v : β) (h : dictLookup l k = none) : dictSet l k v = l ++ [(k, v)] := by
  induction l with
  | nil => simp [dictSet]
  | cons p rest ih =>
    by_cases hk : p.1 = k
    · simp [dictLookup, hk] at h
    · simp [dictLookup, hk] at h
      simp [dictSet, hk, ih h]

lemma dictDel_append_single {β : Type} {l : List (String × β)} {k : String} (v : β)
    (h : dictLookup l k = none) : dictDel (l ++ [(k, v)]) k = l := by
  induction l with
  | nil => simp [dictDel]
  | cons p rest ih =>
    by_cases hk : p.1 = k
    · simp [dictLookup, hk] at h
    · simp [dictLookup, hk] at h
      simp [dictDel, hk, ih h]

lemma mem_dictSet {β : Type} {l : List (String × β)} {k : String} {v : β} {q : String × β}
    (h : q ∈ dictSet l k v) : q = (k, v) ∨ q ∈ l := by
  induction l with
  | nil => simp [dictSet] at h; simp [h]
  | cons p rest ih =>
    by_cases hk : p.1 = k
    · simp [dictSet, hk] at h
      rcases h with h | h
      · exact Or.inl h
      · exact Or.inr (List.mem_cons_of_mem _ h)
    · simp [dictSet, hk] at h
      rcases h with h | h
      · exact Or.inr (by simp [h])
      · rcases ih h with h' | h'
        · exact Or.inl h'
        · exact Or.inr (List.mem_cons_of_mem _ h')

lemma mem_dictDel {β : Type} {l : List (String × β)} {k : String} {q : String × β}
    (h : q ∈ dictDel l k) : q ∈ l := by
  induction l with
  | nil => simp [dictDel] at h
  | cons p rest ih =>
    by_cases hk : p.1 = k
    · simp [dictDel, hk] at h
      exact List.mem_cons_of_mem _ h
    · simp [dictDel, hk] at h
      rcases h with h | h
      · simp [h]
      · exact List.mem_cons_of_mem _ (ih h)

lemma totalRaw_dictDel_le {l : List (String × ℚ)} (k : String)
    (h : ∀ q ∈ l, 0 ≤ q.2) : totalRaw (dictDel l k) ≤ totalRaw l := by
  induction l with
  | nil => simp [dictDel]
  | cons p rest ih =>
    have hrest : ∀ q ∈ rest, 0 ≤ q.2 := fun q hq => h q (List.mem_cons_of_mem _ hq)
    by_cases hk : p.1 = k
    · simp [dictDel, hk, totalRaw_cons]
      have := h p (List.mem_cons_self _ _)
      linarith [this]
    · simp [dictDel, hk, totalRaw_cons]
      have := ih hrest
      linarith [this]

lemma validate_pos {x v : ℚ} (h : validate_positive_number x = some v) : 0 < v ∧ v = x := by
  unfold validate_positive_number at h
  split at h
  · exact ⟨by cases h; next hc => exact hc.1, by cases h; rfl⟩
  · cases h

/-- Case characterization of add_category: either the state is unchanged, or
the call succeeded and wrote the validated amount under the income bound, or
the budget held a non-positive amount for that category (the only situation
in which a failing call can change the state). -/
lemma addCategory_result (b : Budget) (category : String) (amount : ℚ) (today : String) :
    (b.add_category category amount today).2 = b ∨
    (∃ v, validate_positive_number amount = some v ∧
      (b.add_category category amount today).1 = true ∧
      (b.add_category category amount today).2 =
        { b with categories := dictSet b.categories category v, last_updated := today } ∧
      round2 (totalRaw (dictSet b.categories category v)) ≤ b.monthly_income) ∨
    (∃ old, dictLookup b.categories category = some old ∧ old ≤ 0) := by
  by_cases htrim : category.data.all Char.isWhitespace = true
  · left
    simp [Budget.add_category, htrim]
  · cases hval : validate_positive_number amount with
    | none =>
      left
      simp [Budget.add_category, htrim, hval]
    | some v =>
      by_cases hover : round2 (totalRaw (dictSet b.categories category v)) > b.monthly_income
      · cases hl : dictLookup b.categories category with
        | none =>
          left
          have hold : dictGet b.categories category 0 = 0 := by simp [dictGet, hl]
          have hres : (b.add_category category amount today).2 =
              { b with categories := dictDel (dictSet b.categories category v) category } := by
            simp [Budget.add_category, htrim, hval, Budget.get_total_budget, hover, hold]
          rw [hres, dictSet_eq_append_of_none v hl, dictDel_append_single v hl]
        | some old =>
          by_cases h0 : old > 0
          · left
            have hold : dictGet b.categories category 0 = old := by simp [dictGet, hl]
            have hres : (b.add_category category amount today).2 =
                { b with categories := dictSet (dictSet b.categories category v) category old } := by
              simp [Budget.add_category, htrim, hval, Budget.get_total_budget, hover, hold, h0]
            rw [hres, dictSet_dictSet, dictSet_eq_of_lookup hl]
          · right; right
            exact ⟨old, rfl, le_of_not_lt h0⟩
      · right; left
        refine ⟨v, rfl, ?_, ?_, le_of_not_lt hover⟩
        · simp [Budget.add_category, htrim, hval, Budget.get_total_budget, hover]
        · simp [Budget.add_category, htrim, hval, Budget.get_total_budget, hover]

lemma reachable_inv {b : Budget} (h : ReachableBudget b) : BudgetInv b := by
  induction h with
  | create income currency today b hc =>
    cases hv : validate_positive_number income with
    | none => simp [create_budget, hv] at hc
    | some v =>
      simp [create_budget, hv] at hc
      obtain ⟨hpos, -⟩ := validate_pos hv
      subst hc
      constructor
      · intro q hq
        simp [Budget.init] at hq
      · show (Budget.init v currency today).get_total_budget ≤ _
        have : round2 0 ≤ round2 v := round2_mono (le_of_lt hpos)
        simpa [Budget.init, Budget.get_total_budget, totalRaw_nil, round2_zero] using this
  | add b category amount today hb ih =>
    rcases addCategory_result b category amount today with heq | ⟨v, hval, -, heq, hbound⟩ | ⟨old, hl, hle⟩
    · rw [heq]; exact ih
    · rw [heq]
      obtain ⟨hpos, -⟩ := validate_pos hval
      constructor
      · intro q hq
        simp only at hq
        rcases mem_dictSet hq with h' | h'
        · rw [h']; exact hpos
        · exact ih.1 q h'
      · exact hbound
    · exact absurd (ih.1 _ (mem_of_dictLookup hl)) (not_lt_of_le hle)
  | remove b category today hb ih =>
    by_cases hc : (dictLookup b.categories category).isSome
    · have hres : (b.remove_category category today).2 =
          { b with categories := dictDel b.categories category, last_updated := today } := by
        simp [Budget.remove_category, hc]
      rw [hres]
      constructor
      · intro q hq
        exact ih.1 q (mem_dictDel hq)
      · show round2 (totalRaw (dictDel b.categories category)) ≤ b.monthly_income
        have h1 : totalRaw (dictDel b.categories category) ≤ totalRaw b.categories :=
          totalRaw_dictDel_le category (fun q hq => le_of_lt (ih.1 q hq))
        exact le_trans (round2_mono h1) ih.2
    · have hres : (b.remove_category category today).2 = b := by
        simp [Budget.remove_category, hc]
      rw [hres]; exact ih

lemma suggestionFor_eq_claim : suggestionFor = claimSuggestionFor := by
  funext category e
  unfold suggestionFor claimSuggestionFor
  have dou : ¬(("over" : String) = "under") := by decide
  have dob : ¬(("over" : String) = "unbudgeted") := by decide
  have duo : ¬(("under" : String) = "over") := by decide
  have dub : ¬(("under" : String) = "unbudgeted") := by decide
  have dbo : ¬(("unbudgeted" : String) = "over") := by decide
  have dbu : ¬(("unbudgeted" : String) = "under") := by decide
  by_cases h1 : e.status = "over"
  · simp only [h1, dou, dob, true_and, false_and, if_true, if_false, ite_true, ite_false]
    rw [mul_comm ((1 : ℚ) / 10) e.budgeted, mul_comm ((1 : ℚ) / 4) e.budgeted]
  · by_cases h2 : e.status = "under"
    · simp only [h1, h2, duo, dub, true_and, false_and, if_true, if_false, ite_true, ite_false]
      rw [mul_comm ((3 : ℚ) / 10) e.budgeted, mul_comm ((1 : ℚ) / 2) |e.variance|,
        mul_comm ((11 : ℚ) / 10) e.actual]
    · by_cases h3 : e.status = "unbudgeted"
      · simp only [h1, h2, h3, dbo, dbu, true_and, false_and, if_true, if_false,
          ite_true, ite_false]
      · simp only [h1, h2, h3, false_and, if_false, ite_false]

lemma mem_filter_weight {l : List Suggestion} {n : Nat} {s : Suggestion}
    (hs : s ∈ l.filter (fun x => priority_weight x.priority = n)) :
    priority_weight s.priority = n :=
  of_decide_eq_true (List.mem_filter.mp hs).2

lemma sort_by_priority_pairwise (l : List Suggestion) :
    (sort_by_priority l).Pairwise
      (fun s t => priority_weight t.priority ≤ priority_weight s.priority) := by
  unfold sort_by_priority
  have hbucket : ∀ n : Nat,
      (l.filter (fun x => priority_weight x.priority = n)).Pairwise
        (fun s t => priority_weight t.priority ≤ priority_weight s.priority) := by
    intro n
    apply List.pairwise_of_forall_mem_list
    intro a ha b hb
    rw [mem_filter_weight ha, mem_filter_weight hb]
  refine List.pairwise_append.mpr ⟨hbucket 3, ?_, ?_⟩
  · refine List.pairwise_append.mpr ⟨hbucket 2, ?_, ?_⟩
    · refine List.pairwise_append.mpr ⟨hbucket 1, hbucket 0, ?_⟩
      intro a ha b hb
      rw [mem_filter_weight ha, mem_filter_weight hb]
      norm_num
    · intro a ha b hb
      rw [List.mem_append] at hb
      rw [mem_filter_weight ha]
      rcases hb with hb | hb
      · rw [mem_filter_weight hb]; norm_num
      · rw [mem_filter_weight hb]; norm_num
  · intro a ha b hb
    rw [List.mem_append] at hb
    rw [mem_filter_weight ha]
    rcases hb with hb | hb
    · rw [mem_filter_weight hb]; norm_num
    · rw [List.mem_append] at hb
      rcases hb with hb | hb
      · rw [mem_filter_weight hb]; norm_num
      · rw [mem_filter_weight hb]; norm_num

/-! ## Claim theorems -/

/-- C1: for every budget constructed by create_budget and every finite
sequence of add_category and remove_category calls applied to it,
get_total_budget() is less than or equal to monthly_income after every
call. -/
theorem totalBudget_le_income_of_reachable (b : Budget) (h : ReachableBudget b) :
    b.get_total_budget ≤ b.monthly_income :=
  (reachable_inv h).2

/-- Witness for C1 at a concrete reachable budget. -/
theorem totalBudget_le_income_of_reachable_witness :
    (((Budget.init 1000 "USD" "2026-01-01").add_category "Food" 500 "2026-01-02").2).get_total_budget ≤
      (((Budget.init 1000 "USD" "2026-01-01").add_category "Food" 500 "2026-01-02").2).monthly_income :=
  totalBudget_le_income_of_reachable _
    (ReachableBudget.add _ "Food" 500 "2026-01-02"
      (ReachableBudget.create 1000 "USD" "2026-01-01" _ (by with_unfolding_all rfl)))

/-- C2 counterexample: a budget holding a category with amount 0 (as
deserialization can install, see from_dict) loses that category when a
failing add_category rolls back: the call returns False yet the categories
mapping changes. -/
theorem addCategory_rollback_counterexample :
    (Budget.add_category ⟨10, "USD", [("A", 0), ("B", 10)], "d", "d"⟩ "A" 5 "d2").1 = false ∧
    (Budget.add_category ⟨10, "USD", [("A", 0), ("B", 10)], "d", "d"⟩ "A" 5 "d2").2.categories ≠
      [("A", 0), ("B", 10)] := by
  constructor
  · with_unfolding_all rfl
  · have h : (Budget.add_category ⟨10, "USD", [("A", 0), ("B", 10)], "d", "d"⟩ "A" 5 "d2").2.categories =
        [("B", 10)] := by with_unfolding_all rfl
    rw [h]
    decide

/-- C2 (amended): for every budget all of whose stored category amounts are
strictly positive — which includes every budget built by create_budget,
add_category and remove_category — an add_category call that returns False
leaves the budget, and in particular its categories mapping, exactly as it
was. -/
theorem addCategory_fail_preserves_state (b : Budget) (category : String)
    (amount : ℚ) (today : String) (hpos : ∀ q ∈ b.categories, 0 < q.2)
    (hfail : (b.add_category category amount today).1 = false) :
    (b.add_category category amount today).2 = b := by
  rcases addCategory_result b category amount today with heq | ⟨v, -, htrue, -, -⟩ | ⟨old, hl, hle⟩
  · exact heq
  · rw [htrue] at hfail; cases hfail
  · exact absurd (hpos _ (mem_of_dictLookup hl)) (not_lt_of_le hle)

/-- Witness for C2's amended theorem at a concrete failing call. -/
theorem addCategory_fail_preserves_state_witness :
    (Budget.add_category ⟨10, "USD", [("B", 10)], "d", "d"⟩ "C" 5 "d2").2 =
      ⟨10, "USD", [("B", 10)], "d", "d"⟩ :=
  addCategory_fail_preserves_state _ "C" 5 "d2" (by decide) (by with_unfolding_all rfl)

/-- C3 counterexample: create_budget with a non-positive income raises
ValueError (embedded as Except.error) instead of returning a
failure value. -/
theorem create_budget_raises_counterexample :
    create_budget (-5) "USD" "2026-01-01" =
      Except.error "Invalid monthly income. Must be a positive number." := by
  with_unfolding_all rfl

/-- C3 (amended): the Budget mutation operations signal invalid numeric
input with a failure return (False, state unchanged) and never raise, but
create_budget itself raises ValueError (embedded as Except.error) when the
income fails positive-number validation; its interactive caller pre-validates
income, so the raise is not reached from the validation path. -/
theorem invalid_numeric_failure_semantics :
    (∀ (income : ℚ) (currency today : String), validate_positive_number income = none →
        create_budget income currency today =
          Except.error "Invalid monthly income. Must be a positive number.") ∧
    (∀ (b : Budget) (category : String) (amount : ℚ) (today : String),
        validate_positive_number amount = none →
        b.add_category category amount today = (false, b)) ∧
    (∀ (b : Budget) (income : ℚ) (today : String),
        validate_positive_number income = none →
        update_budget_income b income today = (false, b)) := by
  refine ⟨?_, ?_, ?_⟩
  · intro income currency today h
    simp [create_budget, h]
  · intro b category amount today h
    by_cases htrim : category.data.all Char.isWhitespace = true <;> simp [Budget.add_category, htrim, h]
  · intro b income today h
    simp [update_budget_income, h]

/-- Witness for C3's amended theorem at concrete invalid inputs. -/
theorem invalid_numeric_failure_semantics_witness :
    create_budget (-7) "USD" "2026-01-01" =
        Except.error "Invalid monthly income. Must be a positive number." ∧
    Budget.add_category ⟨100, "USD", [], "d", "d"⟩ "Food" (-1) "d2" =
        (false, ⟨100, "USD", [], "d", "d"⟩) ∧
    update_budget_income ⟨100, "USD", [], "d", "d"⟩ 0 "d2" =
        (false, ⟨100, "USD", [], "d", "d"⟩) :=
  ⟨invalid_numeric_failure_semantics.1 (-7) "USD" "2026-01-01" (by decide),
   invalid_numeric_failure_semantics.2.1 _ "Food" (-1) "d2" (by decide),
   invalid_numeric_failure_semantics.2.2 _ 0 "d2" (by decide)⟩

/-- C4: every category present in budget.categories yields a comparison
entry with variance = actual - budgeted, percentageUsed = actual/budgeted*100
when budgeted > 0 (else 0 when actual == 0, +infinity otherwise), and status
over/under/exact by the sign of the variance (amounts rounded to 2 decimals
and percentages to 1 decimal at emission); in particular Food budgeted 500
with actual expenses 600 yields variance 100, status over, percentageUsed
120. -/
theorem compare_budgeted_entry_correct :
    (∀ (conv : Conv) (dateOffset : Nat → String) (b : Budget)
        (transactions : List Transaction) (period category : String) (budgeted : ℚ),
        dictLookup b.categories category = some budgeted →
        dictLookup (track_spending_vs_budget conv dateOffset b transactions period).entries category =
          (let actual := dictGet (period_spending conv dateOffset b transactions period) category 0
           some
            { budgeted := round2 budgeted
              actual := round2 actual
              variance := round2 (actual - budgeted)
              percentage_used :=
                if budgeted > 0 then Pct.val (round1 (actual / budgeted * 100))
                else if actual = 0 then Pct.val 0 else Pct.inf
              status :=
                if actual - budgeted > 0 then "over"
                else if actual - budgeted < 0 then "under"
                else "exact" })) ∧
    dictLookup (track_spending_vs_budget (fun _ _ _ => none) (fun _ => "2026-01-01")
        ⟨1000, "USD", [("Food", 500)], "2026-01-01", "2026-01-01"⟩
        [⟨"2026-01-05", "expense", 600, "Food", "USD", ""⟩] "month").entries "Food" =
      some { budgeted := 500, actual := 600, variance := 100,
             percentage_used := Pct.val 120, status := "over" } := by
  constructor
  · intro conv dateOffset b transactions period category budgeted hmem
    simp only [track_spending_vs_budget]
    rw [dictLookup_append_of_some _
      (by rw [dictLookup_map (track_entry (period_spending conv dateOffset b transactions period)),
              hmem, Option.map_some'])]
    rfl
  · with_unfolding_all rfl

/-- Witness for C4's universally quantified part at a concrete budget. -/
theorem compare_budgeted_entry_correct_witness :
    dictLookup (track_spending_vs_budget (fun _ _ _ => none) (fun _ => "2026-01-01")
        ⟨1000, "USD", [("Rent", 400)], "2026-01-01", "2026-01-01"⟩
        [] "month").entries "Rent" =
      some { budgeted := 400, actual := 0, variance := -400,
             percentage_used := Pct.val 0, status := "under" } := by
  have h := compare_budgeted_entry_correct.1 (fun _ _ _ => none) (fun _ => "2026-01-01")
    ⟨1000, "USD", [("Rent", 400)], "2026-01-01", "2026-01-01"⟩ [] "month" "Rent" 400
    (by decide)
  rw [h]
  with_unfolding_all rfl

/-- C5: every category with actual expense spending that is absent from
budget.categories yields an entry with budgeted 0, status unbudgeted and
percentageUsed +infinity; and a category with budgeted amount 0 and no
actual spending never appears with status unbudgeted. -/
theorem compare_unbudgeted_entry_correct :
    (∀ (conv : Conv) (dateOffset : Nat → String) (b : Budget)
        (transactions : List Transaction) (period category : String) (amount : ℚ),
        dictLookup (period_spending conv dateOffset b transactions period) category = some amount →
        dictLookup b.categories category = none →
        dictLookup (track_spending_vs_budget conv dateOffset b transactions period).entries category =
          some { budgeted := 0, actual := round2 amount, variance := round2 amount,
                 percentage_used := Pct.inf, status := "unbudgeted" }) ∧
    (∀ (conv : Conv) (dateOffset : Nat → String) (b : Budget)
        (transactions : List Transaction) (period category : String),
        b.get_category_amount category = 0 →
        dictLookup (period_spending conv dateOffset b transactions period) category = none →
        ∀ e, dictLookup (track_spending_vs_budget conv dateOffset b transactions period).entries category =
            some e →
          e.status ≠ "unbudgeted") := by
  constructor
  · intro conv dateOffset b transactions period category amount hsp hcat
    simp only [track_spending_vs_budget]
    rw [dictLookup_append_of_none _
      (by rw [dictLookup_map (track_entry (period_spending conv dateOffset b transactions period)),
              hcat, Option.map_none'])]
    rw [dictLookup_map_val unbudgeted_entry]
    rw [dictLookup_filter_of_key (by intro v; simp [hcat]), hsp, Option.map_some']
    rfl
  · intro conv dateOffset b transactions period category hb0 hsp e he hstatus
    simp only [track_spending_vs_budget] at he
    cases hcat : dictLookup b.categories category with
    | some v =>
      rw [dictLookup_append_of_some _
        (by rw [dictLookup_map (track_entry (period_spending conv dateOffset b transactions period)),
                hcat, Option.map_some'])] at he
      have he' : e = track_entry (period_spending conv dateOffset b transactions period) category v := by
        exact (Option.some.injEq _ _).mp he.symm
      rw [he'] at hstatus
      unfold track_entry at hstatus
      simp only at hstatus
      split at hstatus
      · exact absurd hstatus (by decide)
      · split at hstatus
        · exact absurd hstatus (by decide)
        · exact absurd hstatus (by decide)
    | none =>
      rw [dictLookup_append_of_none _
        (by rw [dictLookup_map (track_entry (period_spending conv dateOffset b transactions period)),
                hcat, Option.map_none'])] at he
      rw [dictLookup_map_val unbudgeted_entry,
        dictLookup_filter_of_none _ hsp, Option.map_none'] at he
      cases he

/-- Witness for C5 at a concrete budget and transaction set. -/
theorem compare_unbudgeted_entry_correct_witness :
    dictLookup (track_spending_vs_budget (fun _ _ _ => none) (fun _ => "2026-01-01")
        ⟨1000, "USD", [("Rent", 400)], "2026-01-01", "2026-01-01"⟩
        [⟨"2026-01-05", "expense", 75, "Coffee", "USD", ""⟩] "month").entries "Coffee" =
      some { budgeted := 0, actual := 75, variance := 75,
             percentage_used := Pct.inf, status := "unbudgeted" } := by
  have h := compare_unbudgeted_entry_correct.1 (fun _ _ _ => none) (fun _ => "2026-01-01")
    ⟨1000, "USD", [("Rent", 400)], "2026-01-01", "2026-01-01"⟩
    [⟨"2026-01-05", "expense", 75, "Coffee", "USD", ""⟩] "month" "Coffee" 75
    (by with_unfolding_all rfl) (by decide)
  rw [h]
  with_unfolding_all rfl

/-- C6: the health score equals 100 minus 10 per over-budget category, minus
5 per unbudgeted category, minus (utilization - 95) * 2 when utilization
exceeds 95, plus 10 when utilization lies in [80, 90], clamped to [0, 100];
the level is Excellent at >= 80, Good at >= 60, Fair at >= 40, else Poor;
in particular 0 over-budget, 0 unbudgeted and utilization exactly 85 gives
110 pre-clamp, clamped to score 100 and level Excellent. -/
theorem budget_health_score_formula :
    (∀ (conv : Conv) (dateOffset : Nat → String) (b : Budget)
        (transactions : List Transaction),
        let st := get_budget_status conv dateOffset b transactions
        let raw : ℚ :=
          100 - 10 * (st.over_budget_categories.length : ℚ)
            - 5 * (st.unbudgeted_categories.length : ℚ)
            - (if st.budget_utilization > 95 then (st.budget_utilization - 95) * 2 else 0)
            + (if 80 ≤ st.budget_utilization ∧ st.budget_utilization ≤ 90 then 10 else 0)
        let clamped : ℚ := max 0 (min 100 raw)
        (get_budget_health_score conv dateOffset b transactions).score = round1 clamped ∧
        (get_budget_health_score conv dateOffset b transactions).health_level =
          (if 80 ≤ clamped then "Excellent"
           else if 60 ≤ clamped then "Good"
           else if 40 ≤ clamped then "Fair"
           else "Poor")) ∧
    ((get_budget_health_score (fun _ _ _ => none) (fun _ => "2026-01-01")
        ⟨1000, "USD", [("Food", 1000)], "2026-01-01", "2026-01-01"⟩
        [⟨"2026-01-05", "expense", 850, "Food", "USD", ""⟩]).score = 100 ∧
     (get_budget_health_score (fun _ _ _ => none) (fun _ => "2026-01-01")
        ⟨1000, "USD", [("Food", 1000)], "2026-01-01", "2026-01-01"⟩
        [⟨"2026-01-05", "expense", 850, "Food", "USD", ""⟩]).health_level = "Excellent" ∧
     (get_budget_health_score (fun _ _ _ => none) (fun _ => "2026-01-01")
        ⟨1000, "USD", [("Food", 1000)], "2026-01-01", "2026-01-01"⟩
        [⟨"2026-01-05", "expense", 850, "Food", "USD", ""⟩]).budget_utilization = 85) := by
  constructor
  · intro conv dateOffset b transactions
    dsimp only
    simp only [get_budget_health_score]
    set st := get_budget_status conv dateOffset b transactions with hst
    have hkey :
        (if 80 ≤ st.budget_utilization ∧ st.budget_utilization ≤ 90 then
          (if st.budget_utilization > 95 then
              100 - (st.over_budget_categories.length : ℚ) * 10 -
                (st.unbudgeted_categories.length : ℚ) * 5 - (st.budget_utilization - 95) * 2
            else
              100 - (st.over_budget_categories.length : ℚ) * 10 -
                (st.unbudgeted_categories.length : ℚ) * 5) + 10
        else
          if st.budget_utilization > 95 then
            100 - (st.over_budget_categories.length : ℚ) * 10 -
              (st.unbudgeted_categories.length : ℚ) * 5 - (st.budget_utilization - 95) * 2
          else
            100 - (st.over_budget_categories.length : ℚ) * 10 -
              (st.unbudgeted_categories.length : ℚ) * 5) =
        (100 - 10 * (st.over_budget_categories.length : ℚ)
          - 5 * (st.unbudgeted_categories.length : ℚ)
          - (if st.budget_utilization > 95 then (st.budget_utilization - 95) * 2 else 0)
          + (if 80 ≤ st.budget_utilization ∧ st.budget_utilization ≤ 90 then 10 else 0)) := by
      split_ifs <;> ring
    rw [hkey]
    exact ⟨rfl, by simp only [ge_iff_le]⟩
  · refine ⟨?_, ?_, ?_⟩ <;> with_unfolding_all rfl



/-- C7: suggestions are exactly the per-entry rule claimSuggestionFor
(increase with 20% buffer above the overage when over by strictly more than
10% of budgeted, with priority high above 25%; decrease to
max(budgeted - 0.5|variance|, 1.1 actual) at low priority when under by more
than 30%; add actual * 1.2 at medium priority for unbudgeted spending),
ordered as the stable descending sort by priority weight (high 3, medium 2,
low 1), i.e. the weight-3 block then weight-2 then weight-1 in encounter
order; a category over by exactly 10% yields no suggestion, while slightly
above 10% yields a medium increase. -/
theorem suggest_adjustments_correct :
    (∀ (conv : Conv) (dateOffset : Nat → String) (b : Budget)
        (transactions : List Transaction),
        suggest_budget_adjustments conv dateOffset b transactions =
          (let l := ((track_spending_vs_budget conv dateOffset b transactions "month").entries).filterMap
              (fun p => claimSuggestionFor p.1 p.2)
           l.filter (fun s => priority_weight s.priority = 3) ++
             (l.filter (fun s => priority_weight s.priority = 2) ++
               (l.filter (fun s => priority_weight s.priority = 1) ++
                 l.filter (fun s => priority_weight s.priority = 0))))) ∧
    (∀ (conv : Conv) (dateOffset : Nat → String) (b : Budget)
        (transactions : List Transaction),
        (suggest_budget_adjustments conv dateOffset b transactions).Pairwise
          (fun s t => priority_weight t.priority ≤ priority_weight s.priority)) ∧
    (suggest_budget_adjustments (fun _ _ _ => none) (fun _ => "2026-01-01")
        ⟨1000, "USD", [("Food", 500)], "2026-01-01", "2026-01-01"⟩
        [⟨"2026-01-05", "expense", 550, "Food", "USD", ""⟩] = []) ∧
    (suggest_budget_adjustments (fun _ _ _ => none) (fun _ => "2026-01-01")
        ⟨1000, "USD", [("Food", 500)], "2026-01-01", "2026-01-01"⟩
        [⟨"2026-01-05", "expense", 1101 / 2, "Food", "USD", ""⟩] =
      [{ category := "Food", type := "increase", current_amount := 500,
         suggested_amount := 2803 / 5, priority := "medium" }]) := by
  refine ⟨?_, ?_, ?_, ?_⟩
  · intro conv dateOffset b transactions
    unfold suggest_budget_adjustments sort_by_priority
    rw [suggestionFor_eq_claim]
  · intro conv dateOffset b transactions
    exact sort_by_priority_pairwise _
  · with_unfolding_all rfl
  · with_unfolding_all rfl

/-- C8: with positive prior income and a valid new income,
update_budget_income replaces each category amount c by
round2(c * newIncome/oldIncome), each rounded independently, then installs
the new income; with prior income 0 it installs the income and leaves the
categories (and dates) untouched; and the independent per-category rounding
can leave the new category total different from round2(oldTotal * ratio), a
drift the code does not correct. -/
theorem update_income_rescales :
    (∀ (b : Budget) (new_income : ℚ) (today : String) (v : ℚ),
        validate_positive_number new_income = some v →
        0 < b.monthly_income →
        update_budget_income b new_income today =
          (true, { b with
            categories := b.categories.map (fun p => (p.1, round2 (p.2 * (v / b.monthly_income))))
            monthly_income := v
            last_updated := today })) ∧
    (∀ (b : Budget) (new_income : ℚ) (today : String) (v : ℚ),
        validate_positive_number new_income = some v →
        b.monthly_income = 0 →
        update_budget_income b new_income today = (true, { b with monthly_income := v })) ∧
    (totalRaw (update_budget_income
        ⟨300, "USD", [("A", 1), ("B", 1), ("C", 1)], "2026-01-01", "2026-01-01"⟩
        100 "2026-02-01").2.categories ≠
      round2 (totalRaw
        (⟨300, "USD", [("A", 1), ("B", 1), ("C", 1)], "2026-01-01", "2026-01-01"⟩ : Budget).categories *
          (100 / 300))) := by
  refine ⟨?_, ?_, ?_⟩
  · intro b new_income today v hval hpos
    have hne : ¬ b.monthly_income = 0 := ne_of_gt hpos
    simp [update_budget_income, hval, hne]
  · intro b new_income today v hval hzero
    simp [update_budget_income, hval, hzero]
  · have h1 : totalRaw (update_budget_income
        ⟨300, "USD", [("A", 1), ("B", 1), ("C", 1)], "2026-01-01", "2026-01-01"⟩
        100 "2026-02-01").2.categories = 99 / 100 := by with_unfolding_all rfl
    have h2 : round2 (totalRaw
        (⟨300, "USD", [("A", 1), ("B", 1), ("C", 1)], "2026-01-01", "2026-01-01"⟩ : Budget).categories *
          (100 / 300)) = 1 := by with_unfolding_all rfl
    rw [h1, h2]
    norm_num

/-- Witness for C8 at concrete incomes: halving the income halves the
category, and a zero-income budget takes the new income unchanged. -/
theorem update_income_rescales_witness :
    update_budget_income ⟨200, "USD", [("A", 50)], "d", "d"⟩ 100 "d2" =
        (true, ⟨100, "USD", [("A", 25)], "d", "d2"⟩) ∧
    update_budget_income ⟨0, "USD", [("A", 50)], "d", "d"⟩ 75 "d2" =
        (true, ⟨75, "USD", [("A", 50)], "d", "d"⟩) := by
  constructor
  · have h := update_income_rescales.1 ⟨200, "USD", [("A", 50)], "d", "d"⟩ 100 "d2" 100
      (by decide) (by norm_num)
    rw [h]
    with_unfolding_all rfl
  · have h := update_income_rescales.2.1 ⟨0, "USD", [("A", 50)], "d", "d"⟩ 75 "d2" 75
      (by decide) rfl
    rw [h]

/-- C9: from_dict (to_dict b) reproduces the budget: same monthly_income,
currency, categories, created_date and last_updated — for every budget whose
income sits at the model's 2-decimal precision (as every budget constructed
by the module does, since __init__ and from_dict round the income). -/
theorem budget_serialization_round_trip (b : Budget) (today : String)
    (h : round2 b.monthly_income = b.monthly_income) :
    Budget.from_dict (Budget.to_dict b) today = b := by
  unfold Budget.from_dict Budget.to_dict Budget.init
  cases b with
  | mk income currency categories created updated =>
    simp only [Option.getD_some]
    simp_all

/-- Witness for C9 at a concrete budget. -/
theorem budget_serialization_round_trip_witness :
    Budget.from_dict (Budget.to_dict ⟨1000, "USD", [("Food", 500)], "2026-01-01", "2026-01-02"⟩)
        "2026-03-01" =
      ⟨1000, "USD", [("Food", 500)], "2026-01-01", "2026-01-02"⟩ :=
  budget_serialization_round_trip _ "2026-03-01" (by with_unfolding_all rfl)

/-- C10: from_dict installs the categories mapping without validation: a
mapping whose amounts sum beyond the income yields a budget whose total
budget exceeds its monthly income, so the allocation invariant is not
re-established on deserialization. -/
theorem from_dict_skips_validation :
    (Budget.from_dict ⟨100, none, some [("A", 200)], none, none⟩ "2026-01-01").get_total_budget =
        200 ∧
    (Budget.from_dict ⟨100, none, some [("A", 200)], none, none⟩ "2026-01-01").monthly_income =
        100 ∧
    (Budget.from_dict ⟨100, none, some [("A", 200)], none, none⟩ "2026-01-01").monthly_income <
      (Budget.from_dict ⟨100, none, some [("A", 200)], none, none⟩ "2026-01-01").get_total_budget := by
  refine ⟨?_, ?_, ?_⟩
  · with_unfolding_all rfl
  · with_unfolding_all rfl
  · have h1 : (Budget.from_dict ⟨100, none, some [("A", 200)], none, none⟩ "2026-01-01").get_total_budget = 200 := by
      with_unfolding_all rfl
    have h2 : (Budget.from_dict ⟨100, none, some [("A", 200)], none, none⟩ "2026-01-01").monthly_income = 100 := by
      with_unfolding_all rfl
    rw [h1, h2]
    norm_num
